import Mathlib

/-!
Shallow embedding of the ai-call-survey-agent repository (the two
Python source files `server.py` and `forUI.py`) and verification of
its specification claims.

Both files implement an outbound phone-survey agent: Flask webhook
handlers `/voice` and `/gather` drive a spoken conversation whose
history is kept in the in-process dict `conversations`, a Groq chat
completion produces the assistant replies, and a periodic polling
loop dispatches scheduled calls stored in the Firestore collection
`scheduledCalls`.

The embedding translates each handler into a pure function from its
inputs (the request form fields, the current `conversations` dict,
and the outcome of the external Groq / Twilio calls) to its outputs
(the updated dict and the list of TwiML verbs of the response).
-/

namespace CallAgent

/-- Role of one conversation turn, the `role` field of the message
dicts stored in `conversations`. -/
inductive Role
  | system
  | user
  | assistant
  deriving DecidableEq, Repr

/-- One message dict with a `role` field and a `content` field. -/
structure Turn where
  role : Role
  content : String
  deriving DecidableEq, Repr

/-- Outcome of the external Groq chat-completion call: either a reply
text or a raised exception (any provider failure). -/
inductive LLMResult
  | ok (reply : String)
  | err
  deriving DecidableEq, Repr

/-- Lookup in a Python dict modelled as an association list.
`server.py` always keys `conversations` by a string; `forUI.py` can
key it by Python `None` (an absent `CallSid`), so its embedding uses
`Option String` keys. -/
def lookupKey {K : Type} [DecidableEq K] {V : Type} : List (K × V) → K → Option V
  | [], _ => none
  | (k, v) :: rest, k0 => if k0 = k then some v else lookupKey rest k0

/-- Python dict assignment `d[k] = v`: replace the binding if the key
is present, otherwise add it. -/
def setKey {K : Type} [DecidableEq K] {V : Type} : List (K × V) → K → V → List (K × V)
  | [], k0, v0 => [(k0, v0)]
  | (k, v) :: rest, k0, v0 => if k0 = k then (k0, v0) :: rest else (k, v) :: setKey rest k0 v0

/-- Python slice `xs[-n:]`: the `n` most recent elements of the list
(the whole list when it has at most `n` elements). -/
def takeLast {α : Type} (n : Nat) (l : List α) : List α := l.drop (l.length - n)

/-- The default whitespace set of Python `str.strip` (ASCII part:
space, tab, line feed, carriage return, vertical tab, form feed). -/
def isPyWhitespace (c : Char) : Bool :=
  c.toNat == 32 || c.toNat == 9 || c.toNat == 10 || c.toNat == 13 ||
    c.toNat == 11 || c.toNat == 12

/-- Python `s.strip()`: drop leading and trailing whitespace. -/
def pyStrip (s : String) : String :=
  String.mk (((s.data.dropWhile isPyWhitespace).reverse.dropWhile isPyWhitespace).reverse)

/-- Python emptiness test of a string (the falsiness used by
`if not s`). -/
def pyIsEmpty (s : String) : Bool := s.data.isEmpty

/-- Lexicographic code-point comparison of strings, strictly less.
Both Python string comparison and Firestore string-field comparison
order strings this way. -/
def charListLt : List Char → List Char → Bool
  | _, [] => false
  | [], _ :: _ => true
  | a :: as, b :: bs =>
    Nat.blt a.toNat b.toNat || (a.toNat == b.toNat && charListLt as bs)

/-- Lexicographic comparison of strings, `a` less than or equal to
`b`; the order Firestore applies to the `scheduledAt <= now` clause
of the due-task query. -/
def pyStrLe (a b : String) : Bool := !charListLt b.data a.data

/-- Python truthiness of an optional string: `None` and the empty
string are falsy. -/
def truthyStr : Option String → Bool
  | none => false
  | some s => !pyIsEmpty s

/-- Falsiness, used by checks of the form `if not x`. -/
def falsyStr (o : Option String) : Bool := !truthyStr o

/-- TwiML verbs appearing in the responses built by the two files.
`gatherSay msg` is a `Gather` with `action=/gather` wrapping a `Say`:
it speaks `msg` and then listens for speech.  `say` speaks without
listening.  Verbs placed after a gather run only when the gather
captured no input; a `redirect` re-enters the named endpoint. -/
inductive Verb
  | pause (len : Nat)
  | gatherSay (msg : String)
  | say (msg : String)
  | redirect (target : String)
  deriving DecidableEq, Repr

/-- A response keeps listening for caller speech when it contains a
gather, or re-enters an endpoint via redirect (in this program every
redirect targets `/voice`, whose response contains a gather). -/
def listens (vs : List Verb) : Bool :=
  vs.any fun v =>
    match v with
    | Verb.gatherSay _ => true
    | Verb.redirect _ => true
    | _ => false

/-- The relevant form fields of a Twilio webhook request. -/
structure ReqForm where
  callSid : Option String
  speechResult : Option String
  deriving DecidableEq, Repr

/-! ### server.py -/

/-- The system prompt of `server.py` (module constant `SYSTEM_PROMPT`). -/
def SYSTEM_PROMPT : String :=
  "\nYou are ARJUN, a friendly Indian male customer-support survey assistant.\n\nYour role:\n- Call a customer and collect meaningful feedback.\n- Speak naturally in short, conversational sentences.\n- Ask ONE question at a time.\n- Adapt your questions based on the product they purchased.\n\nConversation Flow (Dynamic):\n1. Start by asking if they recently purchased a product.\n2. Ask what product they bought.\n3. Detect the product type and automatically choose relevant follow-up questions.\n4. Ask 4–6 short, meaningful questions related to THAT product.\n5. Keep the tone warm, helpful, and human.\n6. End politely with a thank you.\n\nProduct Understanding Rules:\n- Identify the product category from the user\x27s words.\n- Ask questions suitable for that category.\n- Examples:\n    • If they bought a dog → ask about dog chain availability, training, food quality, health, vaccinations, grooming, behaviour.\n    • If they bought electronics → ask about performance, battery, heating, installation experience.\n    • If they bought clothing → ask about size, material, comfort, fitting, delivery.\n    • If they bought groceries → ask about freshness, packaging, taste.\n    • If they bought home appliances → ask about installation, noise, energy usage, ease of use.\n    • If they bought cosmetics → ask about fragrance, sensitivity, texture, results.\n\nWhen they answer:\n- Briefly acknowledge what they said.\n- Continue the survey with the next relevant question.\n- Never ask unrelated or generic questions.\n- Never ask multiple questions at once.\n\nIf the user says they didn’t buy anything:\n- Apologize politely and end the call early.\n\nSpeak like a friendly Indian support agent.\nKeep everything short, simple, and phone-friendly.\n"

/-- The system turn lazily installed for a new call sid in `server.py`. -/
def serverSystemTurn : Turn := ⟨Role.system, SYSTEM_PROMPT⟩

/-- The fixed fallback reply of `generate_ai_reply` when the Groq call
raises (server.py line 113). -/
def serverFallback : String :=
  "Sorry, I am having trouble right now. We will contact you again later."

/-- Greeting spoken inside the gather of `/voice` (server.py lines 157-161). -/
def serverGreeting : String :=
  "Hello, this is Arjun from customer support. I would like to ask a few quick questions about your experience with our product. Did you recently buy our product?"

/-- Fallback spoken by `/voice` when its gather hears nothing (line 164). -/
def serverVoiceRetryMsg : String := "I did not hear anything. Let me try once more."

/-- Re-prompt spoken by `/gather` on an empty speech result (line 181). -/
def serverDidNotCatch : String := "I did not catch that. Please say it again."

/-- Goodbye spoken by `/gather` when the next gather hears nothing (line 199). -/
def serverGoodbye : String :=
  "I did not hear anything. I will end this call now. Thank you for your time. Goodbye."

/-- The `conversations` dict of `server.py`. -/
abbrev ConvS := List (String × List Turn)

/-- The reply text extracted from the Groq call in `generate_ai_reply`:
`chat_completion.choices[0].message.content.strip()` on success, the
fixed fallback string on any exception. -/
def groqReply : LLMResult → String
  | LLMResult.ok r => pyStrip r
  | LLMResult.err => serverFallback

/-- `generate_ai_reply` from server.py (lines 94-120): lazily install
the system turn for an unseen sid, append the user turn, obtain the
reply (Groq result or fallback), append it as the assistant turn, and
trim the stored history to its last 10 entries. -/
def generate_ai_reply (conv : ConvS) (call_sid : String) (user_text : String)
    (llm : LLMResult) : ConvS × String :=
  let conv1 :=
    match lookupKey conv call_sid with
    | some _ => conv
    | none => setKey conv call_sid [serverSystemTurn]
  let hist := (lookupKey conv1 call_sid).getD []
  let reply := groqReply llm
  let hist2 := hist ++ [⟨Role.user, user_text⟩, ⟨Role.assistant, reply⟩]
  (setKey conv1 call_sid (takeLast 10 hist2), reply)

/-- The `/voice` handler of server.py (lines 135-167).  The call sid
defaults to the literal string `unknown` when the form field is
absent. -/
def server_voice (conv : ConvS) (form : ReqForm) : ConvS × List Verb :=
  let call_sid := form.callSid.getD "unknown"
  let conv1 :=
    match lookupKey conv call_sid with
    | some _ => conv
    | none => setKey conv call_sid [serverSystemTurn]
  (conv1,
    [Verb.pause 1, Verb.gatherSay serverGreeting,
     Verb.say serverVoiceRetryMsg, Verb.redirect "/voice"])

/-- The `/gather` handler of server.py (lines 171-201).  An empty or
all-whitespace speech result is answered with a re-prompt and a
redirect back to `/voice`; otherwise `generate_ai_reply` runs and the
reply is spoken inside a new gather, with the goodbye as the
no-input fallback verb after it. -/
def server_gather (conv : ConvS) (form : ReqForm) (llm : LLMResult) : ConvS × List Verb :=
  let call_sid := form.callSid.getD "unknown"
  let user_text := form.speechResult.getD ""
  if pyIsEmpty (pyStrip user_text) then
    (conv, [Verb.say serverDidNotCatch, Verb.redirect "/voice"])
  else
    let res := generate_ai_reply conv call_sid user_text llm
    (res.1, [Verb.gatherSay res.2, Verb.say serverGoodbye])

/-! ### Scheduled-call dispatcher -/

/-- A document of the `scheduledCalls` collection, tagged with its
document id. -/
structure Task where
  id : Nat
  phoneNumber : Option String
  scheduledAt : String
  status : String
  deriving DecidableEq, Repr

/-- Observable effects of one poll cycle: an outbound-call attempt for
a task (with the trigger outcome) and a status update of a task
document. -/
inductive DispatchEvent
  | call (id : Nat) (phone : String) (ok : Bool)
  | setStatus (id : Nat) (status : String)
  deriving DecidableEq, Repr

/-- The due-task query of both dispatchers: `status == "pending"` and
`scheduledAt <= now` (ISO strings compared lexicographically, as
Firestore compares string fields). -/
def isDue (now : String) (t : Task) : Bool :=
  decide (t.status = "pending") && pyStrLe t.scheduledAt now

/-- One poll cycle of `check_scheduled_calls` from server.py (lines
225-257).  For each due document with a truthy phone number the code
runs `make_call` — which catches any Twilio failure internally — and
then unconditionally updates the document status to `processed`.
`trig p` tells whether the outbound trigger succeeds for phone `p`;
its outcome does not influence the cycle. -/
def check_scheduled_calls (now : String) (trig : String → Bool) :
    List Task → List Task × List DispatchEvent
  | [] => ([], [])
  | t :: rest =>
    let res := check_scheduled_calls now trig rest
    if isDue now t then
      if truthyStr t.phoneNumber then
        let p := t.phoneNumber.getD ""
        ({ t with status := "processed" } :: res.1,
          DispatchEvent.call t.id p (trig p) :: DispatchEvent.setStatus t.id "processed" :: res.2)
      else (t :: res.1, res.2)
    else (t :: res.1, res.2)

/-- One iteration of the loop body of `cron_job` from forUI.py (lines
201-238).  The due pending documents are listed, then each is
dispatched with `make_call` (a bare `requests.post` with no exception
handling) and updated to `processed`.  A missing `phoneNumber` key
(a `KeyError`) or a raising trigger propagates to the cycle-level
`except`, aborting the remainder of the cycle; `trig p = false`
models `requests.post` raising for phone `p`. -/
def cron_cycle (now : String) (trig : String → Bool) :
    List Task → List Task × List DispatchEvent
  | [] => ([], [])
  | t :: rest =>
    if isDue now t then
      match t.phoneNumber with
      | none => (t :: rest, [])
      | some p =>
        if trig p then
          let res := cron_cycle now trig rest
          ({ t with status := "processed" } :: res.1,
            DispatchEvent.call t.id p true :: DispatchEvent.setStatus t.id "processed" :: res.2)
        else (t :: rest, [DispatchEvent.call t.id p false])
    else
      let res := cron_cycle now trig rest
      (t :: res.1, res.2)

/-! ### forUI.py -/

/-- The system prompt of forUI.py (lines 85-91). -/
def forUISystemPrompt : String :=
  "You are Arjun, a friendly, calm Indian male assistant. Speak naturally and briefly. You are conducting a simple survey."

/-- The system turn lazily installed by `/voice` of forUI.py. -/
def forUISystemTurn : Turn := ⟨Role.system, forUISystemPrompt⟩

/-- Greeting spoken inside the gather of forUI.py `/voice` (lines 104-107). -/
def forUIGreeting : String :=
  "Hello! This is Arjun from customer care. Did you recently purchase a product from us?"

/-- Fallback spoken by forUI.py `/voice` on silence (line 112). -/
def forUIVoiceFallbackMsg : String := "I didn’t hear anything. Goodbye."

/-- Re-prompt prefix spoken by forUI.py `/gather` on silence (line 130). -/
def forUISorryMsg : String := "Sorry, I didn\x27t catch that. Let’s try again."

/-- Re-prompt spoken inside the retry gather of forUI.py (line 139). -/
def forUIRepeatMsg : String := "Could you repeat that?"

/-- The fixed fallback reply of forUI.py `/gather` when the Groq call
raises (line 162). -/
def forUIFallback : String := "Sorry, I am facing a technical issue right now."

/-- Goodbye fallback after the reply gather of forUI.py (line 177). -/
def forUIGoodbye : String := "I did not hear anything. Goodbye."

/-- The `conversations` dict of forUI.py; `request.values.get("CallSid")`
has no default, so Python `None` can be a key. -/
abbrev ConvU := List (Option String × List Turn)

/-- A Python exception escaping a handler; Flask turns it into an
HTTP 500 response with no TwiML document. -/
inductive PyError
  | keyError
  deriving DecidableEq, Repr

instance {ε α : Type} [DecidableEq ε] [DecidableEq α] : DecidableEq (Except ε α) := fun a b =>
  match a, b with
  | Except.error e1, Except.error e2 =>
    if h : e1 = e2 then isTrue (by rw [h]) else isFalse (by intro hc; cases hc; exact h rfl)
  | Except.ok v1, Except.ok v2 =>
    if h : v1 = v2 then isTrue (by rw [h]) else isFalse (by intro hc; cases hc; exact h rfl)
  | Except.error _, Except.ok _ => isFalse (by intro hc; cases hc)
  | Except.ok _, Except.error _ => isFalse (by intro hc; cases hc)

/-- The `/voice` handler of forUI.py (lines 78-114). -/
def forUI_voice (conv : ConvU) (form : ReqForm) : ConvU × List Verb :=
  let call_sid := form.callSid
  let conv1 :=
    match lookupKey conv call_sid with
    | some _ => conv
    | none => setKey conv call_sid [forUISystemTurn]
  (conv1, [Verb.gatherSay forUIGreeting, Verb.say forUIVoiceFallbackMsg])

/-- The `/gather` handler of forUI.py (lines 120-178).  The speech
result is stripped first.  On silence the handler answers with a
re-prompt gather and touches no state.  On speech it appends the
user turn via `conversations[call_sid].append` — a `KeyError` when
the sid was never initialised — then calls Groq: on success the
reply is appended as the assistant turn, on failure the fallback is
spoken but nothing is appended. -/
def forUI_gather (conv : ConvU) (form : ReqForm) (llm : LLMResult) :
    Except PyError (ConvU × List Verb) :=
  let call_sid := form.callSid
  let user_speech := pyStrip (form.speechResult.getD "")
  if pyIsEmpty user_speech then
    Except.ok (conv, [Verb.say forUISorryMsg, Verb.gatherSay forUIRepeatMsg])
  else
    match lookupKey conv call_sid with
    | none => Except.error PyError.keyError
    | some hist =>
      let hist1 := hist ++ [⟨Role.user, user_speech⟩]
      match llm with
      | LLMResult.ok r =>
        Except.ok (setKey conv call_sid (hist1 ++ [⟨Role.assistant, r⟩]),
          [Verb.gatherSay r, Verb.say forUIGoodbye])
      | LLMResult.err =>
        Except.ok (setKey conv call_sid hist1,
          [Verb.gatherSay forUIFallback, Verb.say forUIGoodbye])

/-- The `/api/schedule` handler of forUI.py (lines 56-72): the document
added to `scheduledCalls` on success. -/
structure NewDoc where
  phoneNumber : String
  scheduledAt : String
  status : String
  createdAt : String
  deriving DecidableEq, Repr

/-- The JSON body of a `/api/schedule` request; `data.get` yields
`None` for an absent field. -/
structure ScheduleBody where
  phone : Option String
  scheduledAt : Option String
  deriving DecidableEq, Repr

/-- `/api/schedule` (forUI.py lines 56-72): returns the HTTP status
code and the document created, if any.  `if not phone or not
scheduled_at` rejects falsy fields with a 400 error body; otherwise a
document with `status=pending` and `createdAt=now` is added and a
success acknowledgment is returned with HTTP 200. -/
def api_schedule (body : ScheduleBody) (nowIso : String) : Nat × Option NewDoc :=
  if falsyStr body.phone || falsyStr body.scheduledAt then (400, none)
  else (200, some ⟨body.phone.getD "", body.scheduledAt.getD "", "pending", nowIso⟩)

/-! ### Startup configuration -/

/-- The environment values both files read at import time. -/
structure Env where
  twilioSid : Option String
  twilioAuth : Option String
  twilioPhone : Option String
  publicUrl : Option String
  groqKey : Option String
  deriving DecidableEq, Repr

/-- server.py lines 32-34: the process exits unless all five required
env values are truthy. -/
def serverStartsOk (e : Env) : Bool :=
  truthyStr e.twilioSid && truthyStr e.twilioAuth && truthyStr e.twilioPhone &&
    truthyStr e.publicUrl && truthyStr e.groqKey

/-- forUI.py module initialisation: line 25 raises when `PUBLIC_URL`
is falsy, and line 37 constructs the Groq client, whose constructor
raises at import time when the language-model key is absent (given
`api_key=None` it falls back to the `GROQ_API_KEY` environment
variable — here equally absent — and rejects a missing key; an empty
string is a set key and is accepted).  No telephony value is checked
anywhere in the module init. -/
def forUIStartsOk (e : Env) : Bool := truthyStr e.publicUrl && e.groqKey.isSome

/-! ### Webhook sequences -/

/-- One webhook event for a fixed call: a `/voice` callback, or a
`/gather` callback carrying a speech result together with the outcome
of the Groq call the handler would make. -/
inductive WebhookEv
  | callStarted
  | speech (text : String) (llm : LLMResult)
  deriving DecidableEq, Repr

/-- Run a sequence of webhook events for call sid `sid` through the
server.py handlers, threading the `conversations` dict. -/
def runServerSession (sid : String) : List WebhookEv → ConvS → ConvS
  | [], conv => conv
  | WebhookEv.callStarted :: evs, conv =>
    runServerSession sid evs (server_voice conv ⟨some sid, none⟩).1
  | WebhookEv.speech t llm :: evs, conv =>
    runServerSession sid evs (server_gather conv ⟨some sid, some t⟩ llm).1

/-- Run a sequence of webhook events through the forUI.py handlers.
An uncaught exception (HTTP 500) leaves the dict unchanged. -/
def runForUISession (sid : Option String) : List WebhookEv → ConvU → ConvU
  | [], conv => conv
  | WebhookEv.callStarted :: evs, conv =>
    runForUISession sid evs (forUI_voice conv ⟨sid, none⟩).1
  | WebhookEv.speech t llm :: evs, conv =>
    match forUI_gather conv ⟨sid, some t⟩ llm with
    | Except.ok res => runForUISession sid evs res.1
    | Except.error _ => runForUISession sid evs conv

/-! ### Conversation-shape predicates -/

/-- The spec's predecessor condition for adjacent turns: a user turn
may only directly follow the system turn or an assistant turn. -/
def precededOk (a b : Turn) : Prop :=
  b.role = Role.user → a.role = Role.system ∨ a.role = Role.assistant

instance (a b : Turn) : Decidable (precededOk a b) :=
  inferInstanceAs (Decidable (b.role = Role.user → a.role = Role.system ∨ a.role = Role.assistant))

/-- The head of the history is not a user turn (a user turn at
position 0 has no preceding turn at all). -/
def headNotUser (l : List Turn) : Bool :=
  l.head?.all fun t => !(t.role == Role.user)

/-- The claim's alternation property of a history: every user turn is
immediately preceded by the system turn or an assistant turn. -/
def alternationOk (l : List Turn) : Prop :=
  headNotUser l = true ∧ List.Chain' precededOk l

/-- Invariant maintained by the server.py history update: adjacent
turns satisfy the predecessor condition and the final turn is not a
user turn. -/
def serverHistInv (l : List Turn) : Prop :=
  List.Chain' precededOk l ∧ ∀ t ∈ l.getLast?, t.role ≠ Role.user

/-- Every history stored in the server.py `conversations` dict under
`sid` satisfies the server history invariant. -/
def convInvS (sid : String) (conv : ConvS) : Prop :=
  ∀ h, lookupKey conv sid = some h → serverHistInv h

/-! ## Helper lemmas -/

theorem lookupKey_setKey_self {K V : Type} [DecidableEq K] (m : List (K × V)) (k : K) (v : V) :
    lookupKey (setKey m k v) k = some v := by
  induction m with
  | nil => simp [setKey, lookupKey]
  | cons p rest ih =>
    obtain ⟨k1, v1⟩ := p
    by_cases h : k = k1
    · simp [setKey, h, lookupKey]
    · simp [setKey, h, lookupKey, ih]

theorem lookupKey_setKey_ne {K V : Type} [DecidableEq K] (m : List (K × V)) (k k2 : K) (v : V)
    (h : k2 ≠ k) : lookupKey (setKey m k v) k2 = lookupKey m k2 := by
  induction m with
  | nil => simp [setKey, lookupKey, h]
  | cons p rest ih =>
    obtain ⟨k1, v1⟩ := p
    by_cases h1 : k = k1
    · subst h1
      simp [setKey, lookupKey, h]
    · by_cases h2 : k2 = k1
      · simp [setKey, lookupKey, h1, h2]
      · simp [setKey, lookupKey, h1, h2, ih]

theorem getLast?_drop {α : Type} (l : List α) (n : Nat) (h : n < l.length) :
    (l.drop n).getLast? = l.getLast? := by
  induction l generalizing n with
  | nil => simp at h
  | cons a tl ih =>
    cases n with
    | zero => rfl
    | succ m =>
      have hm : m < tl.length := by simpa using h
      have htl : tl ≠ [] := by
        intro hc
        rw [hc] at hm
        simp at hm
      obtain ⟨b, tl2, rfl⟩ := List.exists_cons_of_ne_nil htl
      simpa using ih m hm

theorem length_takeLast {α : Type} (n : Nat) (l : List α) :
    (takeLast n l).length = min n l.length := by
  unfold takeLast
  rw [List.length_drop]
  omega

theorem takeLast_suffix {α : Type} (n : Nat) (l : List α) : takeLast n l <:+ l :=
  List.drop_suffix _ _

theorem takeLast_of_le {α : Type} (n : Nat) (l : List α) (h : l.length ≤ n) :
    takeLast n l = l := by
  unfold takeLast
  have : l.length - n = 0 := by omega
  rw [this, List.drop_zero]

/-- On a non-empty speech result, the server.py `/gather` handler
replaces the history of the request sid with the trimmed extension by
the user turn and the assistant turn, and answers with the reply
inside a new gather followed by the goodbye fallback. -/
theorem server_gather_speech_update (conv : ConvS) (form : ReqForm) (llm : LLMResult)
    (hist : List Turn)
    (hne : pyIsEmpty (pyStrip (form.speechResult.getD "")) = false)
    (hmem : lookupKey conv (form.callSid.getD "unknown") = some hist) :
    server_gather conv form llm
      = (setKey conv (form.callSid.getD "unknown")
          (takeLast 10 (hist ++ [⟨Role.user, form.speechResult.getD ""⟩,
            ⟨Role.assistant, groqReply llm⟩])),
         [Verb.gatherSay (groqReply llm), Verb.say serverGoodbye]) := by
  unfold server_gather generate_ai_reply
  simp [hne, hmem]

/-! ## Claim C3 -/

/-- Claim C3 as stated is false: after one silent result, a second
consecutive empty speech result to the server.py `/gather` handler
does not terminate the session.  The response is the same re-prompt
with a redirect back to `/voice` (which gathers again), not a goodbye
without listening. -/
theorem claim3_second_silence_counterexample :
    (server_gather
        (server_gather (server_voice [] ⟨some "CA1", none⟩).1 ⟨some "CA1", some ""⟩ LLMResult.err).1
        ⟨some "CA1", some ""⟩ LLMResult.err).2
      = [Verb.say serverDidNotCatch, Verb.redirect "/voice"] ∧
    listens
      (server_gather
        (server_gather (server_voice [] ⟨some "CA1", none⟩).1 ⟨some "CA1", some ""⟩ LLMResult.err).1
        ⟨some "CA1", some ""⟩ LLMResult.err).2 = true ∧
    Verb.say serverGoodbye
      ∉ (server_gather
        (server_gather (server_voice [] ⟨some "CA1", none⟩).1 ⟨some "CA1", some ""⟩ LLMResult.err).1
        ⟨some "CA1", some ""⟩ LLMResult.err).2 := by
  refine ⟨by decide, by decide, by decide⟩

/-- Amended C3: both `/gather` handlers keep no silence state.  Every
empty or all-whitespace speech result, regardless of how many
silences preceded it, produces the same fixed re-prompt response that
keeps listening (server.py redirects to `/voice`, forUI.py gathers
again), and leaves the conversation state unchanged; the handler
itself never ends the session.  The goodbye with no further listening
appears only as the telephony no-input fallback verb after the gather
of a non-empty exchange. -/
theorem claim3_silence_always_retries (conv : ConvS) (convU : ConvU) (form : ReqForm)
    (llm llmU : LLMResult)
    (hempty : pyIsEmpty (pyStrip (form.speechResult.getD "")) = true) :
    server_gather conv form llm
      = (conv, [Verb.say serverDidNotCatch, Verb.redirect "/voice"]) ∧
    forUI_gather convU form llmU
      = Except.ok (convU, [Verb.say forUISorryMsg, Verb.gatherSay forUIRepeatMsg]) := by
  constructor
  · unfold server_gather
    simp [hempty]
  · unfold forUI_gather
    simp [hempty]

theorem claim3_silence_always_retries_witness :
    server_gather [] ⟨some "CA1", some "   "⟩ LLMResult.err
      = ([], [Verb.say serverDidNotCatch, Verb.redirect "/voice"]) ∧
    forUI_gather [] ⟨some "CA1", some "   "⟩ LLMResult.err
      = Except.ok ([], [Verb.say forUISorryMsg, Verb.gatherSay forUIRepeatMsg]) :=
  claim3_silence_always_retries [] [] ⟨some "CA1", some "   "⟩ LLMResult.err LLMResult.err (by decide)

/-! ## Claim C7 -/

/-- Claim C7 as stated is false at a present-but-empty field: a body
whose phone field is present (not missing) but empty is rejected with
HTTP 400 and no document, where the claim prescribes creation. -/
theorem claim7_empty_field_counterexample :
    (some "" : Option String) ≠ none ∧
    (some "2025-01-01T00:00:00Z" : Option String) ≠ none ∧
    api_schedule ⟨some "", some "2025-01-01T00:00:00Z"⟩ "2024-12-31T00:00:00Z" = (400, none) := by
  refine ⟨by decide, by decide, by decide⟩

/-- Amended C7: `/api/schedule` returns HTTP 400 with an error body
and creates no document exactly when the phone field or the
scheduledAt field is missing or empty (Python-falsy); otherwise it
creates a document with status pending and the current time as
createdAt, and returns a success acknowledgment. -/
theorem claim7_schedule_behavior (body : ScheduleBody) (nowIso : String) :
    ((api_schedule body nowIso).1 = 400
      ↔ (falsyStr body.phone || falsyStr body.scheduledAt) = true) ∧
    ((api_schedule body nowIso).2 = none ↔ (api_schedule body nowIso).1 = 400) ∧
    ∀ d, (api_schedule body nowIso).2 = some d → d.status = "pending" ∧ d.createdAt = nowIso := by
  unfold api_schedule
  by_cases h : (falsyStr body.phone || falsyStr body.scheduledAt) = true
  · simp [h]
  · simp [h]

theorem claim7_schedule_behavior_witness :
    ∃ d, (api_schedule ⟨some "+15551234567", some "2025-01-01T00:00:00Z"⟩
        "2024-12-31T00:00:00Z").2 = some d ∧ d.status = "pending"
      ∧ d.createdAt = "2024-12-31T00:00:00Z" := by
  refine ⟨⟨"+15551234567", "2025-01-01T00:00:00Z", "pending", "2024-12-31T00:00:00Z"⟩, by decide, ?_⟩
  exact (claim7_schedule_behavior ⟨some "+15551234567", some "2025-01-01T00:00:00Z"⟩
    "2024-12-31T00:00:00Z").2.2 _ (by decide)

/-! ## Claim C8 -/

/-- Claim C8 as stated is false for forUI.py: with the telephony
account sid missing (and everything else set), the forUI.py startup
check passes, so that process does not refuse to start. -/
theorem claim8_startup_counterexample :
    (Env.mk none (some "token") (some "+15550000000")
        (some "https://example.ngrok-free.app") (some "gsk_key")).twilioSid = none ∧
    forUIStartsOk
      ⟨none, some "token", some "+15550000000",
        some "https://example.ngrok-free.app", some "gsk_key"⟩ = true := by
  exact ⟨rfl, by decide⟩

/-- Amended C8: server.py refuses to start unless all five required
values (both telephony credentials, the telephony phone number, the
public base URL and the language-model key) are present and
non-empty.  forUI.py refuses to start when the public base URL is
missing or empty (its explicit check) or when the language-model key
is absent (the Groq client constructor raises at import); a missing
telephony credential or telephony phone number does not make forUI.py
refuse to start. -/
theorem claim8_startup_checks (e : Env) :
    (serverStartsOk e = true
      ↔ truthyStr e.twilioSid = true ∧ truthyStr e.twilioAuth = true ∧
        truthyStr e.twilioPhone = true ∧ truthyStr e.publicUrl = true ∧
        truthyStr e.groqKey = true) ∧
    (forUIStartsOk e = true ↔ truthyStr e.publicUrl = true ∧ e.groqKey.isSome = true) := by
  unfold serverStartsOk forUIStartsOk
  constructor
  · simp [Bool.and_eq_true, and_assoc]
  · simp [Bool.and_eq_true]

/-! ## Claim C10 -/

/-- Claim C10: a `/gather` request of forUI.py with a non-empty
speech result for a sid absent from `conversations` raises an
uncaught KeyError at the user-turn append, so Flask answers HTTP 500
and no TwiML directive is produced. -/
theorem claim10_unseen_sid_keyerror (conv : ConvU) (form : ReqForm) (llm : LLMResult)
    (hsid : lookupKey conv form.callSid = none)
    (hspeech : pyIsEmpty (pyStrip (form.speechResult.getD "")) = false) :
    forUI_gather conv form llm = Except.error PyError.keyError := by
  unfold forUI_gather
  simp [hspeech, hsid]

theorem claim10_unseen_sid_keyerror_witness :
    forUI_gather [] ⟨some "CA9999", some "yes I did"⟩ LLMResult.err
      = Except.error PyError.keyError :=
  claim10_unseen_sid_keyerror [] ⟨some "CA9999", some "yes I did"⟩ LLMResult.err rfl (by decide)

/-! ## Claim C2 -/

/-- Claim C2 as stated is false: after five non-empty exchanges the
server.py trim `conversations[call_sid][-10:]` has evicted the system
turn, and the first history element is a user turn. -/
theorem claim2_system_turn_evicted_counterexample :
    ((lookupKey (runServerSession "CA1"
        [WebhookEv.callStarted,
         WebhookEv.speech "yes" (LLMResult.ok "r1"),
         WebhookEv.speech "a dog" (LLMResult.ok "r2"),
         WebhookEv.speech "good" (LLMResult.ok "r3"),
         WebhookEv.speech "fine" (LLMResult.ok "r4"),
         WebhookEv.speech "bye" (LLMResult.ok "r5")] []) "CA1").getD []).head?.map Turn.role
      = some Role.user ∧
    ((lookupKey (runServerSession "CA1"
        [WebhookEv.callStarted,
         WebhookEv.speech "yes" (LLMResult.ok "r1"),
         WebhookEv.speech "a dog" (LLMResult.ok "r2"),
         WebhookEv.speech "good" (LLMResult.ok "r3"),
         WebhookEv.speech "fine" (LLMResult.ok "r4"),
         WebhookEv.speech "bye" (LLMResult.ok "r5")] []) "CA1").getD []).length = 10 := by
  refine ⟨by decide, by decide⟩

/-- Amended C2: `generate_ai_reply` caps the stored history at 10 by
keeping the 10 most recent turns — a suffix of the old history
extended by the new user turn and assistant turn.  While the total
stays within 10 (the first four exchanges) nothing is dropped, so the
system turn stays at position 0; once the total exceeds 10 the oldest
turns, the system turn included, are evicted. -/
theorem claim2_trim_keeps_last_ten (conv : ConvS) (sid u : String) (llm : LLMResult)
    (hist : List Turn) (hmem : lookupKey conv sid = some hist) :
    ∃ h2, lookupKey (generate_ai_reply conv sid u llm).1 sid = some h2 ∧
      h2.length = min (hist.length + 2) 10 ∧
      h2 <:+ hist ++ [⟨Role.user, u⟩, ⟨Role.assistant, groqReply llm⟩] ∧
      (hist.length + 2 ≤ 10 →
        h2 = hist ++ [⟨Role.user, u⟩, ⟨Role.assistant, groqReply llm⟩]) := by
  refine ⟨takeLast 10 (hist ++ [⟨Role.user, u⟩, ⟨Role.assistant, groqReply llm⟩]),
    ?_, ?_, takeLast_suffix _ _, ?_⟩
  · unfold generate_ai_reply
    simp [hmem, lookupKey_setKey_self]
  · rw [length_takeLast]
    simp [List.length_append]
    omega
  · intro hle
    apply takeLast_of_le
    simp [List.length_append]
    omega

theorem claim2_trim_keeps_last_ten_witness :
    ∃ h2, lookupKey (generate_ai_reply [("CA1", [serverSystemTurn])] "CA1" "yes"
        (LLMResult.ok "reply")).1 "CA1" = some h2 ∧
      h2.length = min (1 + 2) 10 ∧
      h2 <:+ [serverSystemTurn] ++ [⟨Role.user, "yes"⟩, ⟨Role.assistant, groqReply (LLMResult.ok "reply")⟩] ∧
      (1 + 2 ≤ 10 →
        h2 = [serverSystemTurn] ++ [⟨Role.user, "yes"⟩, ⟨Role.assistant, groqReply (LLMResult.ok "reply")⟩]) := by
  have h := claim2_trim_keeps_last_ten [("CA1", [serverSystemTurn])] "CA1" "yes"
    (LLMResult.ok "reply") [serverSystemTurn] rfl
  simpa using h

/-! ## Claim C9 -/

/-- Claim C9: in server.py a webhook request without a CallSid form
field is handled under the literal sid `unknown`, for `/voice` and
`/gather` alike; consequently any two such requests, whatever real
calls they belong to, read and extend the single history stored under
the key `unknown`: a second sid-less utterance is appended to the
history that the first sid-less utterance created. -/
theorem claim9_missing_callsid_shared_history :
    (∀ (conv : ConvS) (sr : Option String) (llm : LLMResult),
      server_gather conv ⟨none, sr⟩ llm = server_gather conv ⟨some "unknown", sr⟩ llm ∧
      server_voice conv ⟨none, sr⟩ = server_voice conv ⟨some "unknown", sr⟩) ∧
    ∀ (u1 u2 : String) (llm1 llm2 : LLMResult),
      pyIsEmpty (pyStrip u1) = false → pyIsEmpty (pyStrip u2) = false →
      ∀ hist, lookupKey (server_gather [] ⟨none, some u1⟩ llm1).1 "unknown" = some hist →
        lookupKey (server_gather (server_gather [] ⟨none, some u1⟩ llm1).1
            ⟨none, some u2⟩ llm2).1 "unknown"
          = some (takeLast 10 (hist ++ [⟨Role.user, u2⟩, ⟨Role.assistant, groqReply llm2⟩])) := by
  refine ⟨fun conv sr llm => ⟨rfl, rfl⟩, ?_⟩
  intro u1 u2 llm1 llm2 h1 h2 hist hmem
  rw [server_gather_speech_update (server_gather [] ⟨none, some u1⟩ llm1).1
    ⟨none, some u2⟩ llm2 hist h2 hmem]
  exact lookupKey_setKey_self _ _ _

theorem claim9_missing_callsid_shared_history_witness :
    server_gather [] ⟨none, some "hello"⟩ LLMResult.err
      = server_gather [] ⟨some "unknown", some "hello"⟩ LLMResult.err ∧
    ∃ hist, lookupKey (server_gather [] ⟨none, some "hello"⟩ LLMResult.err).1 "unknown" = some hist ∧
      lookupKey (server_gather (server_gather [] ⟨none, some "hello"⟩ LLMResult.err).1
          ⟨none, some "hi again"⟩ LLMResult.err).1 "unknown"
        = some (takeLast 10 (hist
            ++ [⟨Role.user, "hi again"⟩, ⟨Role.assistant, groqReply LLMResult.err⟩])) := by
  have h := claim9_missing_callsid_shared_history
  have hh : lookupKey (server_gather [] ⟨none, some "hello"⟩ LLMResult.err).1 "unknown"
      = some (takeLast 10 ([serverSystemTurn]
          ++ [⟨Role.user, "hello"⟩, ⟨Role.assistant, groqReply LLMResult.err⟩])) := by
    unfold server_gather generate_ai_reply
    simp only [show pyIsEmpty (pyStrip ((some "hello").getD "")) = false from by decide,
      Bool.false_eq_true, if_false, lookupKey, setKey]
    simp [lookupKey_setKey_self, lookupKey]
  exact ⟨(h.1 [] (some "hello") LLMResult.err).1,
    takeLast 10 ([serverSystemTurn]
      ++ [⟨Role.user, "hello"⟩, ⟨Role.assistant, groqReply LLMResult.err⟩]), hh,
    h.2 "hello" "hi again" LLMResult.err LLMResult.err (by decide) (by decide) _ hh⟩

/-! ## Claim C4 -/

/-- Claim C4 as stated is false for the forUI.py flow it cites: on a
Groq failure the fallback is spoken and the session keeps listening,
but the fallback is not appended to the history — the stored history
ends with the user turn and contains no assistant turn with the
fallback text. -/
theorem claim4_fallback_not_appended_counterexample :
    forUI_gather [(some "CA2", [forUISystemTurn])] ⟨some "CA2", some "yes I did"⟩ LLMResult.err
      = Except.ok ([(some "CA2", [forUISystemTurn, ⟨Role.user, "yes I did"⟩])],
          [Verb.gatherSay forUIFallback, Verb.say forUIGoodbye]) ∧
    (⟨Role.assistant, forUIFallback⟩ : Turn)
      ∉ [forUISystemTurn, (⟨Role.user, "yes I did"⟩ : Turn)] := by
  refine ⟨by decide, by decide⟩

/-- Amended C4: on any Groq failure both handlers substitute their
fixed apologetic fallback string and keep listening (the fallback is
spoken inside a new gather) instead of propagating the failure or
ending the session.  In server.py the fallback is also appended to
the history as the assistant turn; in forUI.py it is not — there only
the user turn is appended. -/
theorem claim4_fallback_behavior (conv : ConvS) (convU : ConvU) (form formU : ReqForm)
    (hist histU : List Turn)
    (hne : pyIsEmpty (pyStrip (form.speechResult.getD "")) = false)
    (hneU : pyIsEmpty (pyStrip (formU.speechResult.getD "")) = false)
    (hmem : lookupKey conv (form.callSid.getD "unknown") = some hist)
    (hmemU : lookupKey convU formU.callSid = some histU) :
    server_gather conv form LLMResult.err
      = (setKey conv (form.callSid.getD "unknown")
          (takeLast 10 (hist ++ [⟨Role.user, form.speechResult.getD ""⟩,
            ⟨Role.assistant, serverFallback⟩])),
         [Verb.gatherSay serverFallback, Verb.say serverGoodbye]) ∧
    listens [Verb.gatherSay serverFallback, Verb.say serverGoodbye] = true ∧
    forUI_gather convU formU LLMResult.err
      = Except.ok (setKey convU formU.callSid
          (histU ++ [⟨Role.user, pyStrip (formU.speechResult.getD "")⟩]),
          [Verb.gatherSay forUIFallback, Verb.say forUIGoodbye]) ∧
    listens [Verb.gatherSay forUIFallback, Verb.say forUIGoodbye] = true := by
  refine ⟨server_gather_speech_update conv form LLMResult.err hist hne hmem, by decide, ?_, by decide⟩
  unfold forUI_gather
  simp [hneU, hmemU]

theorem claim4_fallback_behavior_witness :
    server_gather [("CA2", [serverSystemTurn])] ⟨some "CA2", some "yes I did"⟩ LLMResult.err
      = (setKey [("CA2", [serverSystemTurn])] "CA2"
          (takeLast 10 ([serverSystemTurn] ++ [⟨Role.user, "yes I did"⟩,
            ⟨Role.assistant, serverFallback⟩])),
         [Verb.gatherSay serverFallback, Verb.say serverGoodbye]) ∧
    forUI_gather [(some "CA2", [forUISystemTurn])] ⟨some "CA2", some "yes I did"⟩ LLMResult.err
      = Except.ok (setKey [(some "CA2", [forUISystemTurn])] (some "CA2")
          ([forUISystemTurn] ++ [⟨Role.user, pyStrip "yes I did"⟩]),
          [Verb.gatherSay forUIFallback, Verb.say forUIGoodbye]) := by
  have h := claim4_fallback_behavior [("CA2", [serverSystemTurn])] [(some "CA2", [forUISystemTurn])]
    ⟨some "CA2", some "yes I did"⟩ ⟨some "CA2", some "yes I did"⟩
    [serverSystemTurn] [forUISystemTurn] (by decide) (by decide) rfl rfl
  exact ⟨h.1, h.2.2.1⟩

/-! ## Dispatcher lemmas -/

theorem isDue_status (now : String) (t : Task) (h : isDue now t = true) :
    t.status = "pending" := by
  unfold isDue at h
  rw [Bool.and_eq_true] at h
  exact of_decide_eq_true h.1

theorem truthyStr_some (o : Option String) (h : truthyStr o = true) :
    ∃ s, o = some s ∧ pyIsEmpty s = false := by
  cases o with
  | none => simp [truthyStr] at h
  | some s =>
    refine ⟨s, rfl, ?_⟩
    simpa [truthyStr] using h

/-- A poll cycle of server.py preserves the sequence of document ids. -/
theorem check_cycle_map_id (now : String) (trig : String → Bool) (store : List Task) :
    ((check_scheduled_calls now trig store).1).map Task.id = store.map Task.id := by
  induction store with
  | nil => rfl
  | cons t rest ih =>
    unfold check_scheduled_calls
    by_cases hd : isDue now t = true
    · by_cases hp : truthyStr t.phoneNumber = true
      · simp [hd, hp, ih]
      · simp [hd, hp, ih]
    · simp [hd, ih]

/-- Every call event of a server.py poll cycle comes from a pending
document of the queried snapshot, carries its phone number, and
records the trigger outcome for it. -/
theorem call_event_source (now : String) (trig : String → Bool) (store : List Task)
    (i : Nat) (p : String) (ok : Bool)
    (h : DispatchEvent.call i p ok ∈ (check_scheduled_calls now trig store).2) :
    ∃ t ∈ store, t.id = i ∧ t.status = "pending" ∧ t.phoneNumber = some p ∧ ok = trig p := by
  induction store with
  | nil => simp [check_scheduled_calls] at h
  | cons t rest ih =>
    unfold check_scheduled_calls at h
    by_cases hd : isDue now t = true
    · by_cases hp : truthyStr t.phoneNumber = true
      · obtain ⟨s, hs, hse⟩ := truthyStr_some t.phoneNumber hp
        simp [hd, hp] at h
        rcases h with ⟨hi, hpp, hok⟩ | h
        · rw [hs] at hpp hok
          simp only [Option.getD_some] at hpp hok
          subst hpp
          exact ⟨t, List.mem_cons_self t rest, hi.symm, isDue_status now t hd, hs, hok⟩
        · obtain ⟨t2, ht2, rest2⟩ := ih h
          exact ⟨t2, List.mem_cons_of_mem t ht2, rest2⟩
      · simp [hd, hp] at h
        obtain ⟨t2, ht2, rest2⟩ := ih h
        exact ⟨t2, List.mem_cons_of_mem t ht2, rest2⟩
    · simp [hd] at h
      obtain ⟨t2, ht2, rest2⟩ := ih h
      exact ⟨t2, List.mem_cons_of_mem t ht2, rest2⟩

/-- After a server.py poll cycle, every document for which a call
event was emitted is stored with status processed. -/
theorem call_event_processed (now : String) (trig : String → Bool) (store : List Task)
    (i : Nat) (p : String) (ok : Bool)
    (h : DispatchEvent.call i p ok ∈ (check_scheduled_calls now trig store).2) :
    ∃ t ∈ (check_scheduled_calls now trig store).1, t.id = i ∧ t.status = "processed" := by
  induction store with
  | nil => simp [check_scheduled_calls] at h
  | cons t rest ih =>
    unfold check_scheduled_calls at h ⊢
    by_cases hd : isDue now t = true
    · by_cases hp : truthyStr t.phoneNumber = true
      · simp only [hd, hp, if_true] at h ⊢
        simp only [List.mem_cons] at h
        rcases h with h | h | h
        · cases h
          exact ⟨{ t with status := "processed" }, List.mem_cons_self _ _, rfl, rfl⟩
        · cases h
        · obtain ⟨t2, ht2, rest2⟩ := ih h
          exact ⟨t2, List.mem_cons_of_mem _ ht2, rest2⟩
      · simp only [hd, hp, if_true, Bool.false_eq_true, if_false] at h ⊢
        obtain ⟨t2, ht2, rest2⟩ := ih h
        exact ⟨t2, List.mem_cons_of_mem _ ht2, rest2⟩
    · simp only [hd, Bool.false_eq_true, if_false] at h ⊢
      obtain ⟨t2, ht2, rest2⟩ := ih h
      exact ⟨t2, List.mem_cons_of_mem _ ht2, rest2⟩

/-- The only status a server.py poll cycle ever writes is processed. -/
theorem setStatus_event_processed (now : String) (trig : String → Bool) (store : List Task)
    (j : Nat) (s : String)
    (h : DispatchEvent.setStatus j s ∈ (check_scheduled_calls now trig store).2) :
    s = "processed" := by
  induction store with
  | nil => simp [check_scheduled_calls] at h
  | cons t rest ih =>
    unfold check_scheduled_calls at h
    by_cases hd : isDue now t = true
    · by_cases hp : truthyStr t.phoneNumber = true
      · simp only [hd, hp, if_true, List.mem_cons] at h
        rcases h with h | h | h
        · cases h
        · cases h
          rfl
        · exact ih h
      · simp only [hd, hp, if_true, Bool.false_eq_true, if_false] at h
        exact ih h
    · simp only [hd, Bool.false_eq_true, if_false] at h
      exact ih h

/-! ## Claim C1 -/

/-- Claim C1 as stated is false: for a due pending task, the observable
trace of a server.py poll cycle is the outbound call followed directly
by the update to processed; no pending-to-claimed transition precedes
the call — no claimed status is ever written. -/
theorem claim1_no_claim_transition_counterexample :
    (check_scheduled_calls "2024-01-02T00:00:00Z" (fun _ => true)
        [⟨0, some "+15551234567", "2024-01-01T00:00:00Z", "pending"⟩]).2
      = [DispatchEvent.call 0 "+15551234567" true, DispatchEvent.setStatus 0 "processed"] ∧
    DispatchEvent.setStatus 0 "claimed"
      ∉ (check_scheduled_calls "2024-01-02T00:00:00Z" (fun _ => true)
        [⟨0, some "+15551234567", "2024-01-01T00:00:00Z", "pending"⟩]).2 := by
  refine ⟨by decide, by decide⟩

/-- Amended C1: the dispatcher performs no claim step.  For each due
pending task it invokes the outbound call trigger first and then
updates the document directly from pending to processed — the only
status ever written.  Because the poll query selects only pending
documents, a dispatched task is stored as processed and is not
dispatched again by a later poll cycle; at-most-once dispatch thus
holds for sequential poll cycles, with no claimed state involved. -/
theorem claim1_dispatch_at_most_once (now1 now2 : String) (trig1 trig2 : String → Bool)
    (store : List Task) (hnodup : (store.map Task.id).Nodup)
    (i : Nat) (p : String) (ok : Bool)
    (hcall : DispatchEvent.call i p ok ∈ (check_scheduled_calls now1 trig1 store).2) :
    (∃ t ∈ store, t.id = i ∧ t.status = "pending" ∧ t.phoneNumber = some p) ∧
    (∃ t ∈ (check_scheduled_calls now1 trig1 store).1, t.id = i ∧ t.status = "processed") ∧
    (∀ j s, DispatchEvent.setStatus j s ∈ (check_scheduled_calls now1 trig1 store).2
      → s = "processed") ∧
    ∀ p2 ok2, DispatchEvent.call i p2 ok2
        ∉ (check_scheduled_calls now2 trig2 (check_scheduled_calls now1 trig1 store).1).2 := by
  obtain ⟨t, htmem, hti, hstat, hphone, _⟩ := call_event_source now1 trig1 store i p ok hcall
  refine ⟨⟨t, htmem, hti, hstat, hphone⟩,
    call_event_processed now1 trig1 store i p ok hcall,
    fun j s hj => setStatus_event_processed now1 trig1 store j s hj, ?_⟩
  intro p2 ok2 hc2
  obtain ⟨t2, ht2mem, ht2i, ht2stat, _, _⟩ :=
    call_event_source now2 trig2 (check_scheduled_calls now1 trig1 store).1 i p2 ok2 hc2
  obtain ⟨t1, ht1mem, ht1i, ht1stat⟩ :=
    call_event_processed now1 trig1 store i p ok hcall
  have hnodup1 : (((check_scheduled_calls now1 trig1 store).1).map Task.id).Nodup := by
    rw [check_cycle_map_id]
    exact hnodup
  have heq : t1 = t2 :=
    List.inj_on_of_nodup_map hnodup1 ht1mem ht2mem (by rw [ht1i, ht2i])
  have : ("processed" : String) = "pending" := by
    rw [← ht1stat, heq, ht2stat]
  exact absurd this (by decide)

theorem claim1_dispatch_at_most_once_witness :
    (∃ t ∈ [(⟨0, some "+15551234567", "2024-01-01T00:00:00Z", "pending"⟩ : Task)],
      t.id = 0 ∧ t.status = "pending" ∧ t.phoneNumber = some "+15551234567") ∧
    (∃ t ∈ (check_scheduled_calls "2024-01-02T00:00:00Z" (fun _ => true)
        [⟨0, some "+15551234567", "2024-01-01T00:00:00Z", "pending"⟩]).1,
      t.id = 0 ∧ t.status = "processed") ∧
    (∀ j s, DispatchEvent.setStatus j s ∈ (check_scheduled_calls "2024-01-02T00:00:00Z"
        (fun _ => true) [⟨0, some "+15551234567", "2024-01-01T00:00:00Z", "pending"⟩]).2
      → s = "processed") ∧
    ∀ p2 ok2, DispatchEvent.call 0 p2 ok2
        ∉ (check_scheduled_calls "2024-01-02T00:01:00Z" (fun _ => true)
          (check_scheduled_calls "2024-01-02T00:00:00Z" (fun _ => true)
            [⟨0, some "+15551234567", "2024-01-01T00:00:00Z", "pending"⟩]).1).2 :=
  claim1_dispatch_at_most_once "2024-01-02T00:00:00Z" "2024-01-02T00:01:00Z"
    (fun _ => true) (fun _ => true)
    [⟨0, some "+15551234567", "2024-01-01T00:00:00Z", "pending"⟩]
    (by decide) 0 "+15551234567" true (by decide)

/-! ## Claim C5 -/

/-- Claim C5 as stated is false: with a failing outbound trigger, the
server.py cycle still marks the due task processed — it is neither
left in a claimed state (none exists) nor kept from the processed
state. -/
theorem claim5_not_left_claimed_counterexample :
    check_scheduled_calls "2024-01-02T00:00:00Z" (fun _ => false)
        [⟨0, some "+15551234567", "2024-01-01T00:00:00Z", "pending"⟩]
      = ([⟨0, some "+15551234567", "2024-01-01T00:00:00Z", "processed"⟩],
         [DispatchEvent.call 0 "+15551234567" false, DispatchEvent.setStatus 0 "processed"]) := by
  decide

/-- Amended C5: there is no claimed state.  In server.py `make_call`
swallows the trigger failure (it is only logged), so the task is
nevertheless marked processed and is never re-dispatched — but also
never retried.  In forUI.py the raising trigger aborts the poll cycle
and the task stays pending, so it is re-dispatched by the next
cycle. -/
theorem claim5_trigger_failure_behavior (now : String) (trig : String → Bool)
    (t : Task) (p : String)
    (hdue : isDue now t = true) (hp : t.phoneNumber = some p) (hpe : pyIsEmpty p = false)
    (hfail : trig p = false) :
    check_scheduled_calls now trig [t]
      = ([{ t with status := "processed" }],
         [DispatchEvent.call t.id p false, DispatchEvent.setStatus t.id "processed"]) ∧
    cron_cycle now trig [t] = ([t], [DispatchEvent.call t.id p false]) := by
  constructor
  · unfold check_scheduled_calls check_scheduled_calls
    simp [hdue, hp, truthyStr, hpe, hfail]
  · unfold cron_cycle
    simp [hdue, hp, hfail]

theorem claim5_trigger_failure_behavior_witness :
    check_scheduled_calls "2024-01-02T00:00:00Z" (fun _ => false)
        [⟨7, some "+15557654321", "2024-01-01T00:00:00Z", "pending"⟩]
      = ([⟨7, some "+15557654321", "2024-01-01T00:00:00Z", "processed"⟩],
         [DispatchEvent.call 7 "+15557654321" false, DispatchEvent.setStatus 7 "processed"]) ∧
    cron_cycle "2024-01-02T00:00:00Z" (fun _ => false)
        [⟨7, some "+15557654321", "2024-01-01T00:00:00Z", "pending"⟩]
      = ([⟨7, some "+15557654321", "2024-01-01T00:00:00Z", "pending"⟩],
         [DispatchEvent.call 7 "+15557654321" false]) :=
  claim5_trigger_failure_behavior "2024-01-02T00:00:00Z" (fun _ => false)
    ⟨7, some "+15557654321", "2024-01-01T00:00:00Z", "pending"⟩ "+15557654321"
    (by decide) rfl (by decide) rfl

/-! ## Claim C6 -/

theorem precededOk_of_not_user (a b : Turn) (h : a.role ≠ Role.user) : precededOk a b := by
  intro _
  cases hr : a.role with
  | system => exact Or.inl rfl
  | user => exact absurd hr h
  | assistant => exact Or.inr rfl

theorem serverHistInv_init : serverHistInv [serverSystemTurn] := by
  constructor
  · exact List.chain'_singleton _
  · intro t ht
    simp [List.getLast?_singleton] at ht
    subst ht
    simp [serverSystemTurn]

/-- The server.py history update preserves the history invariant: the
appended user turn follows a non-user turn, the assistant turn closes
the pair, and trimming to a suffix cannot create a new adjacency. -/
theorem serverHistInv_step (hist : List Turn) (u r : String) (hinv : serverHistInv hist) :
    serverHistInv (takeLast 10 (hist ++ [⟨Role.user, u⟩, ⟨Role.assistant, r⟩])) := by
  obtain ⟨hchain, hlast⟩ := hinv
  have hchain2 : List.Chain' precededOk (hist ++ [⟨Role.user, u⟩, ⟨Role.assistant, r⟩]) := by
    rw [List.chain'_append]
    refine ⟨hchain, ?_, ?_⟩
    · simp [List.chain'_cons, precededOk]
    · intro x hx y hy
      simp at hy
      subst hy
      exact precededOk_of_not_user x _ (hlast x hx)
  refine ⟨hchain2.suffix (takeLast_suffix _ _), ?_⟩
  intro t ht
  have hlen : (hist ++ [(⟨Role.user, u⟩ : Turn), ⟨Role.assistant, r⟩]).length - 10
      < (hist ++ [(⟨Role.user, u⟩ : Turn), ⟨Role.assistant, r⟩]).length := by
    simp [List.length_append]
    omega
  unfold takeLast at ht
  rw [getLast?_drop _ _ hlen] at ht
  simp [List.getLast?_append] at ht
  subst ht
  simp

theorem convInvS_voice (sid : String) (conv : ConvS) (sr : Option String)
    (hinv : convInvS sid conv) : convInvS sid (server_voice conv ⟨some sid, sr⟩).1 := by
  intro h hmem
  unfold server_voice at hmem
  cases hl : lookupKey conv sid with
  | some h0 =>
    simp only [Option.getD_some, hl] at hmem
    injection hmem with hh
    subst hh
    exact hinv _ hl
  | none =>
    simp only [Option.getD_some, hl, lookupKey_setKey_self] at hmem
    injection hmem with hh
    subst hh
    exact serverHistInv_init

theorem convInvS_gather (sid : String) (conv : ConvS) (st : String) (llm : LLMResult)
    (hinv : convInvS sid conv) : convInvS sid (server_gather conv ⟨some sid, some st⟩ llm).1 := by
  intro h hmem
  unfold server_gather generate_ai_reply at hmem
  by_cases he : pyIsEmpty (pyStrip st) = true
  · simp only [Option.getD_some, he, if_true] at hmem
    exact hinv h hmem
  · rw [Bool.not_eq_true] at he
    cases hl : lookupKey conv sid with
    | some h0 =>
      simp only [Option.getD_some, he, Bool.false_eq_true, if_false, hl,
        lookupKey_setKey_self, Option.getD_some] at hmem
      injection hmem with hh
      subst hh
      exact serverHistInv_step h0 st (groqReply llm) (hinv h0 hl)
    | none =>
      simp only [Option.getD_some, he, Bool.false_eq_true, if_false, hl,
        lookupKey_setKey_self, Option.getD_some] at hmem
      injection hmem with hh
      subst hh
      exact serverHistInv_step [serverSystemTurn] st (groqReply llm) serverHistInv_init

theorem runServerSession_inv (sid : String) (evs : List WebhookEv) (conv : ConvS)
    (hinv : convInvS sid conv) : convInvS sid (runServerSession sid evs conv) := by
  induction evs generalizing conv with
  | nil => exact hinv
  | cons ev evs ih =>
    cases ev with
    | callStarted => exact ih _ (convInvS_voice sid conv none hinv)
    | speech t llm => exact ih _ (convInvS_gather sid conv t llm hinv)

/-- Claim C6 as stated is false for forUI.py: a Groq failure appends a
user turn with no assistant turn after it, so the next utterance
produces two adjacent user turns; the second user turn is preceded by
a user turn, not by the system turn or an assistant turn. -/
theorem claim6_alternation_counterexample :
    lookupKey (runForUISession (some "CA3")
        [WebhookEv.callStarted,
         WebhookEv.speech "I bought a dog" LLMResult.err,
         WebhookEv.speech "it is healthy" (LLMResult.ok "Great")] []) (some "CA3")
      = some [forUISystemTurn, ⟨Role.user, "I bought a dog"⟩, ⟨Role.user, "it is healthy"⟩,
              ⟨Role.assistant, "Great"⟩] ∧
    ¬ alternationOk [forUISystemTurn, ⟨Role.user, "I bought a dog"⟩,
        ⟨Role.user, "it is healthy"⟩, ⟨Role.assistant, "Great"⟩] := by
  constructor
  · decide
  · intro hc
    have h2 := hc.2
    rw [List.chain'_cons, List.chain'_cons] at h2
    have h12 := h2.2.1 rfl
    rcases h12 with h | h <;> cases h

/-- Amended C6: in server.py the alternation property holds for every
reachable history in the following form: adjacent turns always
satisfy the predecessor condition — every user turn that has a
predecessor follows the system turn or an assistant turn — and the
history never ends in a user turn.  (After trimming, a user turn can
become the first element, so the claim holds except at position 0;
and in forUI.py a Groq failure breaks alternation outright.) -/
theorem claim6_server_alternation (evs : List WebhookEv) (h : List Turn)
    (hmem : lookupKey (runServerSession "CA1" evs []) "CA1" = some h) :
    List.Chain' precededOk h ∧ ∀ t ∈ h.getLast?, t.role ≠ Role.user := by
  have hinv0 : convInvS "CA1" [] := by
    intro h2 hc
    simp [lookupKey] at hc
  obtain ⟨h1, h2⟩ := runServerSession_inv "CA1" evs [] hinv0 h hmem
  exact ⟨h1, h2⟩

theorem claim6_server_alternation_witness :
    List.Chain' precededOk [serverSystemTurn]
      ∧ ∀ t ∈ ([serverSystemTurn] : List Turn).getLast?, t.role ≠ Role.user :=
  claim6_server_alternation [WebhookEv.callStarted] [serverSystemTurn] rfl

end CallAgent

